import Mathlib

/-!
Verification of `RecoveryUSBMaker.py` (ThinkRecoveryTools).

The Python source is shallowly embedded: strings are lists of characters
(or Unicode code points as `Nat` where arithmetic on `ord` matters),
filesystem and subprocess outcomes are supplied by an explicit oracle
environment (`Env`), and each Python function becomes a Lean function that
returns the list of progress events it would enqueue.  Paths are modelled
as lists of components (`os.path.join` appends a component,
`os.path.dirname` drops the last one).
-/

namespace RecoveryUSBMaker

/-! ## Python string helpers

`str.strip()`, `str.upper()` etc. are modelled on ASCII data, which covers
every string the program manipulates in the claims under study. -/

/-- Whitespace characters stripped by Python `str.strip()` (ASCII subset). -/
def isPySpace (c : Char) : Bool :=
  c = ' ' || c = '\t' || c = '\n' || c = '\r' || c = Char.ofNat 11 || c = Char.ofNat 12

/-- Python `s.strip()`: drop leading and trailing whitespace. -/
def pyStripWs (s : String) : String :=
  String.mk (((s.data.dropWhile isPySpace).reverse.dropWhile isPySpace).reverse)

/-- Python truthiness of `line.strip()` used as a blank-line test:
a line is blank iff every character is whitespace. -/
def isBlankLine (s : String) : Bool := s.data.all isPySpace

/-- Python `s.strip(chars)` for an explicit character set (used for
`copypath.strip('/\\')`). -/
def pyStripSet (cs : List Char) (s : String) : String :=
  String.mk (((s.data.dropWhile (· ∈ cs)).reverse.dropWhile (· ∈ cs)).reverse)

/-- `copypath.strip('/\\')` from the source. -/
def stripSlashes (s : String) : String := pyStripSet ['/', '\\'] s

/-- ASCII uppercasing of one character (Python `str.upper()` on ASCII data). -/
def asciiUpper (c : Char) : Char :=
  if 'a' ≤ c ∧ c ≤ 'z' then Char.ofNat (c.toNat - 32) else c

/-- ASCII lowercasing of one character (Python `str.lower()` on ASCII data). -/
def asciiLower (c : Char) : Char :=
  if 'A' ≤ c ∧ c ≤ 'Z' then Char.ofNat (c.toNat + 32) else c

/-- Python `s.upper()` (ASCII model). -/
def pyUpper (s : String) : String := String.mk (s.data.map asciiUpper)

/-- Python `s.lower()` (ASCII model). -/
def pyLower (s : String) : String := String.mk (s.data.map asciiLower)

/-- Python `s.endswith(suffix)`. -/
def strEndsWith (s suf : String) : Bool := suf.data.isSuffixOf s.data

/-- Whether `needle` occurs as a contiguous run inside the character list. -/
def containsChars (needle : List Char) : List Char → Bool
  | [] => needle.isEmpty
  | c :: tl => needle.isPrefixOf (c :: tl) || containsChars needle tl

/-- Python `needle in hay` substring containment. -/
def strContains (hay needle : String) : Bool := containsChars needle.data hay.data

/-- Python `s.split(sep)` for a one-character separator: split at every
occurrence, keeping empty pieces (mirrors `str.split('\n')` and the
separator handling of `os.path.basename`). -/
def splitCharAux (sep : Char) (acc : List Char) : List Char → List String
  | [] => [String.mk acc.reverse]
  | c :: cs =>
    if c = sep then String.mk acc.reverse :: splitCharAux sep [] cs
    else splitCharAux sep (c :: acc) cs

/-- Python `s.split(sep)` (single-character separator). -/
def pySplitChar (sep : Char) (s : String) : List String :=
  splitCharAux sep [] s.data

/-- Python `os.path.splitext(s)[0]`: the name up to the last dot
(the leading-dot special case of `splitext` does not arise for the
`*.cri` names this program feeds it). -/
def pySplitextBase (s : String) : String :=
  if '.' ∈ s.data then
    String.mk (((s.data.reverse.dropWhile (· ≠ '.')).drop 1).reverse)
  else s

/-- Python `os.path.basename` (separators modelled as `/`). -/
def pyBasename (s : String) : String :=
  ((pySplitChar '/' s).getLast?).getD ""

/-- Python format spec `{x:<8}`: left-justify by padding with spaces on the
right up to the width. -/
def pyLjust (w : Nat) (s : String) : String :=
  s ++ String.mk (List.replicate (w - s.length) ' ')

/-- Python `content.replace('\t', ' ')`. -/
def pyReplaceTabs (s : String) : String :=
  String.mk (s.data.map (fun c => if c = '\t' then ' ' else c))

/-- Scanner for Python `s.split(sep, 1)`: accumulate characters until the
first separator; if found, return the two pieces, otherwise the whole
string as a single piece. -/
def pySplit1Aux (sep : Char) (acc : List Char) : List Char → List String
  | [] => [String.mk acc.reverse]
  | x :: xs =>
    if x = sep then [String.mk acc.reverse, String.mk xs]
    else pySplit1Aux sep (x :: acc) xs

/-- Python `s.split(sep, 1)` (split at the first occurrence only). -/
def pySplit1 (sep : Char) (s : String) : List String :=
  pySplit1Aux sep [] s.data

/-! ## The obfuscation transform (`encrypt_imz_password`)

`IMZ_PW_CHARS = "k`gybs0vampjd"` is embedded as its list of code points.
The transform works on code points throughout: the input string is a list
of `ord` values, the output the list of ciphered ordinals handed to
`chr` (as `Int`, so the subtraction `- (i % 3)` is genuine integer
arithmetic). -/

/-- Code points of the 13-character alphabet `"k`gybs0vampjd"`. -/
def IMZ_PW_CHARS : List Nat :=
  [107, 96, 103, 121, 98, 115, 48, 118, 97, 109, 112, 106, 100]

/-- The loop body of `encrypt_imz_password`, carrying the position `i`:
`ciphered_ordinal = ord(IMZ_PW_CHARS[ord(c) % 13]) - (i % 3) + 2`. -/
def encryptFrom (i : Nat) : List Nat → List Int
  | [] => []
  | c :: rest =>
    ((IMZ_PW_CHARS.getD (c % 13) 0 : Int) - (i % 3) + 2) :: encryptFrom (i + 1) rest

/-- `encrypt_imz_password(clear_password)`: input and output strings as
lists of code points (the `if not clear_password: return ""` guard
coincides with the empty-list base case). -/
def encrypt_imz_password (clear : List Nat) : List Int :=
  encryptFrom 0 clear

/-- `encrypt_imz_password` applied to a Lean `String` (used for the `7z`
password argument); the proved code-point bounds make `Char.ofNat` of
`toNat` a faithful `chr`. -/
def encryptStr (s : String) : String :=
  String.mk ((encrypt_imz_password (s.data.map Char.toNat)).map
    (fun n => Char.ofNat n.toNat))

/-- A Python `chr` argument is valid when it is a non-negative code point
within the Unicode range. -/
def validChrArg (n : Int) : Prop := 0 ≤ n ∧ n ≤ 0x10FFFF

/-! ## Progress events, paths and the filesystem oracle -/

/-- One log-queue record: the dict
`{"action": .., "filename": .., "path": .., "result": ..}`. -/
structure Event where
  action : String
  filename : String
  path : String
  result : String
deriving Repr, DecidableEq

/-- A filesystem path as its list of components; `os.path.join` appends a
component, `os.path.dirname` drops the last one. -/
abbrev Path := List String

/-- Render a path for use inside an event field or a command line. -/
def pathStr (p : Path) : String := String.intercalate "/" p

/-- Outcome of a `subprocess.run` call: the binary was missing
(`FileNotFoundError`), the call raised some other exception, or the
process exited with a return code and captured stdout/stderr. -/
inductive RunResult where
  | notFound
  | raised (msg : String)
  | exited (code : Int) (stdout stderr : String)
deriving Repr, DecidableEq

/-- Oracle for the outcome of each filesystem / subprocess call the
pipeline makes, keyed by the call's arguments. `Option String` fields are
`none` on success and `some msg` when the call raises an exception with
message `msg`; `Except` fields either raise or return a value. Each
relevant call site consults the oracle once, so a plain function of the
arguments models one run's trace. -/
structure Env where
  /-- `os.makedirs(p, exist_ok=True)` -/
  makedirsErr : Path → Option String
  /-- `open(p, 'w').write(..)` for a create-action's file -/
  writeErr : Path → Option String
  /-- `shutil.copy2(src, dst)` -/
  copy2Err : Path → Path → Option String
  /-- `os.path.exists(p)` -/
  pathExists : Path → Bool
  /-- `os.path.isdir(p)` -/
  isDir : Path → Bool
  /-- `os.rename(old, new)` -/
  renameErr : Path → Path → Option String
  /-- `shutil.rmtree(p)` -/
  rmtreeErr : Path → Option String
  /-- `shutil.copytree(src, dst)` -/
  copytreeErr : Path → Path → Option String
  /-- `os.listdir(p)` -/
  listdirRes : Path → Except String (List String)
  /-- `open(p, 'r').read()` (the CRI classification read) -/
  readTextRes : Path → Except String String
  /-- reading a text file's lines (`next(f)` / `f.readlines()`), without
  line terminators -/
  readLinesRes : Path → Except String (List String)
  /-- `f.writelines(lines)` rewriting `p` -/
  writeLinesErr : Path → List String → Option String
  /-- `subprocess.run` of the 7z command line -/
  run7z : List String → RunResult
  /-- `subprocess.run` of the aodbuild command line -/
  runAodbuild : List String → RunResult

/-! ## Post-processing (`post_process_files`) -/

/-- The header splice at the core of step 4: `content_lines[:4] =
header_lines; final_lines = [line for line in content_lines if
line.strip()]` (with `header` the four lines read from the backup). -/
def spliceHeader (header : List String) (content : List String) : List String :=
  (header ++ content.drop 4).filter (fun l => !isBlankLine l)

/-- Step 2 of `post_process_files`: overwrite the target's `EFI` directory
from the patch tree (delete-then-copy), reached only when the patch source
is set and exists. -/
def postStep2Efi (env : Env) (recovery_target patch_source : Path) : List Event :=
  let source_efi := patch_source ++ ["EFI"]
  let target_efi := recovery_target ++ ["EFI"]
  if env.isDir source_efi then
    if env.pathExists target_efi then
      match env.rmtreeErr target_efi with
      | some e => [⟨"COPY", "EFI Folder", "", "Error: " ++ e⟩]
      | none =>
        match env.copytreeErr source_efi target_efi with
        | some e => [⟨"COPY", "EFI Folder", "", "Error: " ++ e⟩]
        | none => [⟨"COPY", "EFI Folder", "root", "Overwritten from Patch"⟩]
    else
      match env.copytreeErr source_efi target_efi with
      | some e => [⟨"COPY", "EFI Folder", "", "Error: " ++ e⟩]
      | none => [⟨"COPY", "EFI Folder", "root", "Overwritten from Patch"⟩]
  else []

/-- The `for filename in patch_files:` loop of step 3.  Returns the events
emitted and, when a CRI/IMZ pair was adopted, the CRI's filename
(`copied_cri_name`).  A `shutil.copy2` exception escapes the loop to the
enclosing handler, which logs one COPY error event; the classification
read failure is caught by a bare `except: pass` and produces nothing. -/
def postStep3Loop (env : Env) (target_rec_dir patch_source : Path) :
    List String → List Event × Option String
  | [] => ([], none)
  | filename :: rest =>
    if strEndsWith (pyLower filename) ".cri" then
      let cri_path := patch_source ++ [filename]
      let is_arm :=
        match env.readTextRes cri_path with
        | .ok content =>
          let up := pyUpper content
          strContains up "ARM" && (strContains up "OS" || strContains up "PLATFORM")
        | .error _ => false
      if is_arm then
        let r := postStep3Loop env target_rec_dir patch_source rest
        (⟨"SKIP", filename, "", "ARM Architecture detected"⟩ :: r.1, r.2)
      else
        let imz_filename := pySplitextBase filename ++ ".IMZ"
        let imz_path := patch_source ++ [imz_filename]
        if env.pathExists imz_path then
          match env.copy2Err cri_path target_rec_dir with
          | some e => ([⟨"COPY", "CRI/IMZ", "", "Error: " ++ e⟩], none)
          | none =>
            match env.copy2Err imz_path target_rec_dir with
            | some e => ([⟨"COPY", "CRI/IMZ", "", "Error: " ++ e⟩], none)
            | none =>
              ([⟨"COPY", filename ++ " & .IMZ", "RECOVERY", "Copied from Patch"⟩],
                some filename)
        else postStep3Loop env target_rec_dir patch_source rest
    else postStep3Loop env target_rec_dir patch_source rest

/-- Step 3 of `post_process_files`: create the `RECOVERY` directory, list
the patch source and scan it for the first adoptable CRI/IMZ pair. -/
def postStep3Cri (env : Env) (recovery_target patch_source : Path) :
    List Event × Option String :=
  let target_rec_dir := recovery_target ++ ["RECOVERY"]
  match env.makedirsErr target_rec_dir with
  | some e => ([⟨"COPY", "CRI/IMZ", "", "Error: " ++ e⟩], none)
  | none =>
    match env.listdirRes patch_source with
    | .error e => ([⟨"COPY", "CRI/IMZ", "", "Error: " ++ e⟩], none)
    | .ok patch_files => postStep3Loop env target_rec_dir patch_source patch_files

/-- Step 4 of `post_process_files` (AOD processing), reached only when a
CRI was copied in step 3.  The boolean is true when the function `return`s
early because `aodbuild.exe` is missing (skipping the final STATUS). -/
def postStep4Aod (env : Env) (recovery_target script_dir : Path)
    (copied_cri_name : String) : List Event × Bool :=
  let target_rec_dir := recovery_target ++ ["RECOVERY"]
  let aod_dat := target_rec_dir ++ ["AOD.DAT"]
  let aod_org := target_rec_dir ++ ["AOD.ORG"]
  let aod_stat := target_rec_dir ++ ["aodstat.dat"]
  if env.pathExists aod_dat then
    match env.renameErr aod_dat aod_org with
    | some e => ([⟨"ERROR", "AOD Processing", "", e⟩], false)
    | none =>
      let aodbuild_exe := script_dir ++ ["aodbuild.exe"]
      if !env.pathExists aodbuild_exe then
        ([⟨"ERROR", "aodbuild.exe", "", "Tool missing in script dir"⟩], true)
      else
        let cmd := [pathStr aodbuild_exe, "/F:" ++ copied_cri_name, "/P:AOD.ORG"]
        match env.runAodbuild cmd with
        | .notFound => ([⟨"ERROR", "AOD Processing", "", "FileNotFoundError"⟩], false)
        | .raised e => ([⟨"ERROR", "AOD Processing", "", e⟩], false)
        | .exited code _ stderr =>
          let execEv : Event :=
            if code = 0 then ⟨"EXEC", "aodbuild.exe", "RECOVERY", "Success"⟩
            else ⟨"EXEC", "aodbuild.exe", "", "Fail: " ++ stderr⟩
          if env.pathExists aod_stat then
            match env.renameErr aod_stat aod_dat with
            | some e => ([execEv, ⟨"ERROR", "AOD Processing", "", e⟩], false)
            | none =>
              match env.readLinesRes aod_org with
              | .error e => ([execEv, ⟨"ERROR", "AOD Processing", "", e⟩], false)
              | .ok org_lines =>
                if org_lines.length < 4 then
                  -- `next(f_org)` exhausts a backup of fewer than 4 lines
                  ([execEv, ⟨"ERROR", "AOD Processing", "", "StopIteration"⟩], false)
                else
                  match env.readLinesRes aod_dat with
                  | .error e => ([execEv, ⟨"ERROR", "AOD Processing", "", e⟩], false)
                  | .ok content_lines =>
                    let final_lines := spliceHeader (org_lines.take 4) content_lines
                    match env.writeLinesErr aod_dat final_lines with
                    | some e => ([execEv, ⟨"ERROR", "AOD Processing", "", e⟩], false)
                    | none =>
                      ([execEv, ⟨"MODIFY", "AOD.DAT", "RECOVERY",
                        "Header updated & Cleaned"⟩], false)
          else ([execEv, ⟨"ERROR", "aodstat.dat", "", "Not generated by aodbuild"⟩], false)
  else ([], false)

/-- Step 1 of `post_process_files`: rename `MFG` to `mfg` when present. -/
def postStep1Mfg (env : Env) (recovery_target : Path) : List Event :=
  if env.isDir (recovery_target ++ ["MFG"]) then
    match env.renameErr (recovery_target ++ ["MFG"]) (recovery_target ++ ["mfg"]) with
    | none => [⟨"MODIFY", "Folder MFG", "root", "Renamed to 'mfg'"⟩]
    | some e => [⟨"MODIFY", "Folder MFG", "", "Error: " ++ e⟩]
  else []

/-- Steps 2 and 3 together, guarded by `if patch_source and
os.path.exists(patch_source):` (`none` models a falsy patch path). -/
def postPatchBlock (env : Env) (recovery_target : Path) :
    Option Path → List Event × Option String
  | none => ([], none)
  | some p =>
    if env.pathExists p then
      (postStep2Efi env recovery_target p ++ (postStep3Cri env recovery_target p).1,
        (postStep3Cri env recovery_target p).2)
    else ([], none)

/-- Step 4, guarded by `if copied_cri_name:`. -/
def postAodBlock (env : Env) (recovery_target script_dir : Path) :
    Option String → List Event × Bool
  | none => ([], false)
  | some cri => postStep4Aod env recovery_target script_dir cri

/-- `post_process_files(recovery_target, patch_source, script_dir,
log_queue)`: the list of events it enqueues.  `patch_source` is `none`
when the patch path input was empty (Python falsy).  The boolean from the
AOD block records the early `return` that skips the final STATUS. -/
def post_process_files (env : Env) (recovery_target : Path)
    (patch_source : Option Path) (script_dir : Path) : List Event :=
  postStep1Mfg env recovery_target ++
    (postPatchBlock env recovery_target patch_source).1 ++
    (postAodBlock env recovery_target script_dir
      (postPatchBlock env recovery_target patch_source).2).1 ++
    (if (postAodBlock env recovery_target script_dir
          (postPatchBlock env recovery_target patch_source).2).2 then []
     else [⟨"STATUS", "", "", "Post-processing complete."⟩])

/-! ## Manifest nodes and the executor (`run_recovery_process`) -/

/-- One `<file>` element of the RMF manifest.  `get('attr')` yields `none`
when the attribute is absent; `fcontent = some t` records a present
`<fcontent>` child whose `.text` is `t` (`ElementTree` gives
`text = None` for an empty element, modelled as `some none`). -/
structure FileNode where
  name : Option String := none
  copypath : Option String := none
  fcontent : Option (Option String) := none
  source : Option String := none
  copy : Option String := none
  key : Option String := none
deriving Repr, DecidableEq

/-- The `<recovery>` element handed to `run_recovery_process` (the caller,
`parse_rmf_for_dialog`, has already checked it exists): its optional
`<manualfiles>` and `<files>` children as lists of file nodes in document
order. -/
structure RecoveryNode where
  manualfiles : Option (List FileNode)
  files : Option (List FileNode)
deriving Repr

/-- Python truthiness of an optional string attribute. -/
def optTruthy : Option String → Bool
  | none => false
  | some s => !s.isEmpty

/-- The guard of the create branch (line `if filename and fcontent_node is
not None and fcontent_node.text:`). -/
def createQualifies (n : FileNode) : Bool :=
  match n.name, n.fcontent with
  | some fn, some (some t) => !fn.isEmpty && !t.isEmpty
  | _, _ => false

/-- The guard of the transfer branch (line `source_file =
file_node.get('source'); if not source_file: continue`). -/
def transferQualifies (n : FileNode) : Bool :=
  match n.source with
  | some s => !s.isEmpty
  | none => false

/-- One iteration of the `manualfiles` (CREATE) loop.  The destination
`os.makedirs` sits outside the per-action `try`, so its exception escapes
(`Except.error`); the write sits inside it, so a failure is converted to a
CREATE event and the loop continues. -/
def processCreateNode (env : Env) (target_dir : Path) (n : FileNode) :
    Except String (List Event) :=
  match n.name, n.fcontent with
  | some filename, some (some text) =>
    if filename.isEmpty || text.isEmpty then .ok []
    else
      let copypath_rel := stripSlashes ((n.copypath).getD "")
      let full_target_path : Path := target_dir ++ [copypath_rel, filename]
      match env.makedirsErr full_target_path.dropLast with
      | some e => .error e
      | none =>
        let log_msg :=
          if pyUpper filename = "VALUES.TXT" then "Content Verified (Written)"
          else "Success"
        match env.writeErr full_target_path with
        | some e => .ok [⟨"CREATE", filename, copypath_rel, "Error: " ++ e⟩]
        | none => .ok [⟨"CREATE", filename, copypath_rel, log_msg⟩]
  | _, _ => .ok []

/-- The whole `manualfiles` loop; an escaped exception aborts it, keeping
the events emitted so far. -/
def processCreateNodes (env : Env) (target_dir : Path) :
    List FileNode → List Event × Option String
  | [] => ([], none)
  | n :: rest =>
    match processCreateNode env target_dir n with
    | .error e => ([], some e)
    | .ok evs =>
      let r := processCreateNodes env target_dir rest
      (evs ++ r.1, r.2)

/-- `final_name = name if name else os.path.basename(source_file)` from
the transfer loop. -/
def transferFinalName (n : FileNode) (source_file : String) : String :=
  match n.name with
  | some nm => if nm.isEmpty then pyBasename source_file else nm
  | none => pyBasename source_file

/-- The 7z command line the transfer loop builds:
`['7z', 'x', source, '-o<dest>', '-y']` plus `-p<password>` when the
derived password is non-empty. -/
def unpack7zCmd (source_dir target_dir : Path) (n : FileNode)
    (source_file : String) : List String :=
  let password := encryptStr ((n.key).getD "")
  let target_subdir := target_dir ++ [stripSlashes ((n.copypath).getD "")]
  ["7z", "x", pathStr (source_dir ++ [source_file]),
    "-o" ++ pathStr target_subdir, "-y"]
    ++ (if password.isEmpty then [] else ["-p" ++ password])

/-- The last diagnostic line the transfer loop reports on a non-zero 7z
exit: `(proc.stderr or proc.stdout).strip().split('\n')[-1]`. -/
def lastDiagLine (stdout stderr : String) : String :=
  ((pySplitChar '\n'
    (pyStripWs (if stderr.isEmpty then stdout else stderr))).getLast?).getD ""

/-- One iteration of the `files` (COPY / UNPACK) loop.  As in the create
loop, `os.makedirs(target_subdir)` is not wrapped per-action and escapes;
copy errors and every 7z outcome are handled in place. -/
def processTransferNode (env : Env) (source_dir target_dir : Path) (n : FileNode) :
    Except String (List Event) :=
  match n.source with
  | none => .ok []
  | some source_file =>
    if source_file.isEmpty then .ok []
    else
      let copy_action := n.copy
      let copypath_rel := stripSlashes ((n.copypath).getD "")
      let source_full_path := source_dir ++ [source_file]
      let target_subdir := target_dir ++ [copypath_rel]
      match env.makedirsErr target_subdir with
      | some e => .error e
      | none =>
        if !env.pathExists source_full_path then
          .ok [⟨"MISSING", source_file, "", "Source not found"⟩]
        else if copy_action = some "1" then
          let target_full_path := target_subdir ++ [transferFinalName n source_file]
          match env.copy2Err source_full_path target_full_path with
          | none => .ok [⟨"COPY", source_file, copypath_rel, "Success"⟩]
          | some e => .ok [⟨"COPY", source_file, copypath_rel, "Error: " ++ e⟩]
        else if copy_action = some "0" then
          match env.run7z (unpack7zCmd source_dir target_dir n source_file) with
          | .exited code stdout stderr =>
            if code = 0 then .ok [⟨"UNPACK", source_file, copypath_rel, "Success"⟩]
            else
              .ok [⟨"UNPACK", source_file, copypath_rel,
                "Fail (" ++ lastDiagLine stdout stderr ++ ")"⟩]
          | .notFound => .ok [⟨"UNPACK", "7z.exe", "", "Not Found in Path"⟩]
          | .raised e => .ok [⟨"UNPACK", source_file, "", "Exception: " ++ e⟩]
        else .ok []

/-- The whole `files` loop. -/
def processTransferNodes (env : Env) (source_dir target_dir : Path) :
    List FileNode → List Event × Option String
  | [] => ([], none)
  | n :: rest =>
    match processTransferNode env source_dir target_dir n with
    | .error e => ([], some e)
    | .ok evs =>
      let r := processTransferNodes env source_dir target_dir rest
      (evs ++ r.1, r.2)

/-- The done-token record enqueued from the `finally:` block
(`ACTION_DONE_TOKEN = "PROCESS_DONE"`). -/
def doneEvent : Event := ⟨"PROCESS_DONE", "", "", "Finished"⟩

/-- Step 2 of the executor: the whole `manualfiles` block, which is
skipped when the element is absent (`if manualfiles_node is not None`). -/
def manualEvents (env : Env) (target_dir : Path) :
    Option (List FileNode) → List Event × Option String
  | none => ([], none)
  | some ns => processCreateNodes env target_dir ns

/-- Step 3 of the executor: the whole `files` block, skipped when the
element is absent. -/
def filesEvents (env : Env) (source_dir target_dir : Path) :
    Option (List FileNode) → List Event × Option String
  | none => ([], none)
  | some ns => processTransferNodes env source_dir target_dir ns

/-- The `try:` body of `run_recovery_process` (steps 1-4 and the final
STATUS): the events enqueued before the handlers run, plus the escaped
exception, if any. -/
def runTryBody (env : Env) (root : RecoveryNode) (source_dir : Path)
    (patch_dir : Option Path) (target_dir script_dir : Path) :
    List Event × Option String :=
  match env.makedirsErr target_dir with
  | some e => ([], some e)
  | none =>
    let ev1 : List Event :=
      [⟨"INIT", "Target Dir", pathStr target_dir, "Created/Verified"⟩]
    let r2 := manualEvents env target_dir root.manualfiles
    match r2.2 with
    | some e => (ev1 ++ r2.1, some e)
    | none =>
      let r3 := filesEvents env source_dir target_dir root.files
      match r3.2 with
      | some e => (ev1 ++ r2.1 ++ r3.1, some e)
      | none =>
        let ev4 := post_process_files env target_dir patch_dir script_dir
        (ev1 ++ r2.1 ++ r3.1 ++ ev4 ++
          [⟨"STATUS", "", "", "Recovery Creation Completed!"⟩], none)

/-- `run_recovery_process(rmf_root, source_dir, patch_dir, target_dir,
log_queue)`: every event the worker enqueues, in order.  The body runs
under one `try:`; any escaped exception yields a single FATAL event from
the `except:` handler, and the `finally:` appends the done token in all
cases. -/
def run_recovery_process (env : Env) (root : RecoveryNode) (source_dir : Path)
    (patch_dir : Option Path) (target_dir script_dir : Path) : List Event :=
  (match runTryBody env root source_dir patch_dir target_dir script_dir with
   | (evs, none) => evs
   | (evs, some e) => evs ++ [⟨"FATAL", "Main Loop", "", e⟩]) ++ [doneEvent]

/-! ## VALUES.TXT confirmation text (`parse_rmf_for_dialog`) -/

/-- One iteration of the reformatting loop: blank lines are dropped; a
line is split at the first colon (`line.split(':', 1)`) and rendered as
`f"{key_part.strip():<8}:\t{val_part.strip()}"`; when the unpacking raises
`ValueError` (no colon), `line.strip()` is kept instead. -/
def formatValuesLine (line : String) : Option String :=
  if isBlankLine line then none
  else
    match pySplit1 ':' line with
    | [key_part, val_part] =>
      some (pyLjust 8 (pyStripWs key_part) ++ ":\t" ++ pyStripWs val_part)
    | _ => some (pyStripWs line)

/-- The whole VALUES.TXT content transformation: strip the content,
replace tabs by spaces, split into lines, reformat each and rejoin. -/
def valuesDisplayOfContent (text : String) : String :=
  let content := pyReplaceTabs (pyStripWs text)
  String.intercalate "\n" ((pySplitChar '\n' content).filterMap formatValuesLine)

/-- The scan of `manualfiles` for a node named `VALUES.TXT` (matching is
case-insensitive via `.upper()`); a match without truthy content does not
`break`, so scanning continues. -/
def findValuesContent : List FileNode → Option String
  | [] => none
  | n :: rest =>
    if pyUpper ((n.name).getD "") = "VALUES.TXT" then
      match n.fcontent with
      | some (some t) =>
        if t.isEmpty then findValuesContent rest
        else some (valuesDisplayOfContent t)
      | _ => findValuesContent rest
    else findValuesContent rest

/-! ## Concrete oracle fixtures -/

/-- An oracle where every filesystem call succeeds, no path exists, no
directory listing has entries; concrete runs for the theorems below are
built from it by field update. -/
def baseEnv : Env where
  makedirsErr _ := none
  writeErr _ := none
  copy2Err _ _ := none
  pathExists _ := false
  isDir _ := false
  renameErr _ _ := none
  rmtreeErr _ := none
  copytreeErr _ _ := none
  listdirRes _ := .ok []
  readTextRes _ := .ok ""
  readLinesRes _ := .ok []
  writeLinesErr _ _ := none
  run7z _ := .exited 0 "" ""
  runAodbuild _ := .exited 0 "" ""

/-- A transfer node (`<file source="a.bin" copy="1" copypath="RECOVERY"/>`). -/
def nodeTransferABin : FileNode :=
  { source := some "a.bin", copy := some "1", copypath := some "RECOVERY" }

/-- A create node (`<file name="f.txt" copypath="sub"><fcontent>hello
</fcontent></file>`). -/
def nodeCreateFTxt : FileNode :=
  { name := some "f.txt", copypath := some "sub", fcontent := some (some "hello") }

/-- Oracle where creating the directory `usb/sub` raises. -/
def envDirFails : Env :=
  { baseEnv with
    makedirsErr := fun p => if p = ["usb", "sub"] then some "Permission denied" else none }

/-- Oracle where writing the file `usb/sub/f.txt` raises. -/
def envWriteFails : Env :=
  { baseEnv with
    writeErr := fun p => if p = ["usb", "sub", "f.txt"] then some "disk full" else none }

/-- A manifest whose `manualfiles` holds two create nodes. -/
def rootTwoCreates : RecoveryNode :=
  { manualfiles := some [nodeCreateFTxt, { nodeCreateFTxt with copypath := some "sub2" }],
    files := none }

/-- Oracle where every path exists and copying `src/a.bin` raises. -/
def envCopyFails : Env :=
  { baseEnv with
    pathExists := fun _ => true,
    copy2Err := fun src _ => if src = ["src", "a.bin"] then some "copy boom" else none }

/-- Oracle where every path exists and the 7z binary is missing. -/
def env7zMissing : Env :=
  { baseEnv with
    pathExists := fun _ => true,
    run7z := fun _ => .notFound }

/-- Oracle where creating the transfer destination `usb/RECOVERY` raises. -/
def envTransferDirFails : Env :=
  { baseEnv with
    makedirsErr := fun p => if p = ["usb", "RECOVERY"] then some "mkdir boom" else none }

/-- An unpack node (`<file source="a.imz" copy="0" copypath="RECOVERY"/>`). -/
def nodeUnpackAImz : FileNode :=
  { source := some "a.imz", copy := some "0", copypath := some "RECOVERY" }

/-- A manifest with no `manualfiles` and one transfer node. -/
def rootTransferOnly : RecoveryNode :=
  { manualfiles := none, files := some [nodeTransferABin] }

/-- Oracle where the patch directory holds `X.CRI` whose classification
read raises (everything else succeeds, nothing else exists). -/
def envCriReadFails : Env :=
  { baseEnv with
    pathExists := fun p => p == ["patch"],
    listdirRes := fun p => if p = ["patch"] then .ok ["X.CRI"] else .ok [],
    readTextRes := fun p =>
      if p = ["patch", "X.CRI"] then .error "PermissionError" else .ok "" }

/-- Oracle where a CRI/IMZ pair is adopted and `AOD.DAT` exists, but
`aodbuild.exe` is absent from the script directory. -/
def envToolMissing : Env :=
  { baseEnv with
    pathExists := fun p =>
      p == ["patch"] || p == ["patch", "X.IMZ"] || p == ["usb", "RECOVERY", "AOD.DAT"],
    listdirRes := fun p => if p = ["patch"] then .ok ["X.CRI"] else .ok [] }

/-! ## Helper lemmas about the cipher -/

theorem encryptFrom_length (k : Nat) (s : List Nat) :
    (encryptFrom k s).length = s.length := by
  induction s generalizing k with
  | nil => rfl
  | cons c rest ih => simp [encryptFrom, ih]

theorem encryptFrom_getD (k : Nat) (s : List Nat) (i : Nat) (h : i < s.length) :
    (encryptFrom k s).getD i 0 =
      (IMZ_PW_CHARS.getD (s.getD i 0 % 13) 0 : Int) - (((k + i) % 3 : Nat) : Int) + 2 := by
  induction s generalizing k i with
  | nil => simp at h
  | cons c rest ih =>
    cases i with
    | zero => simp [encryptFrom]
    | succ j =>
      have hj : j < rest.length := by simpa using h
      have h2 := ih (k + 1) j hj
      have hk : k + 1 + j = k + (j + 1) := by omega
      rw [hk] at h2
      simpa [encryptFrom] using h2

theorem IMZ_PW_CHARS_getD_bounds (idx : Nat) (h : idx < 13) :
    48 ≤ IMZ_PW_CHARS.getD idx 0 ∧ IMZ_PW_CHARS.getD idx 0 ≤ 121 := by
  revert idx; decide

theorem encryptFrom_mem_bounds (s : List Nat) (k : Nat) (o : Int)
    (h : o ∈ encryptFrom k s) : 48 ≤ o ∧ o ≤ 123 := by
  induction s generalizing k with
  | nil => simp [encryptFrom] at h
  | cons c rest ih =>
    simp only [encryptFrom, List.mem_cons] at h
    rcases h with h | h
    · have hidx : c % 13 < 13 := Nat.mod_lt _ (by norm_num)
      have hb := IMZ_PW_CHARS_getD_bounds (c % 13) hidx
      have hk3 : k % 3 < 3 := Nat.mod_lt _ (by norm_num)
      subst h
      constructor <;> omega
    · exact ih (k + 1) h

/-- C1: the obfuscation transform returns a string of the input's length
whose code point at position `i` is
`ord(IMZ_PW_CHARS[ord(s[i]) mod 13]) - (i mod 3) + 2`; the empty string
maps to the empty string and `"a"` (code point 97) maps to `"2"`
(code point 50). -/
theorem claim_C1_cipher_formula (s : List Nat) :
    (encrypt_imz_password s).length = s.length ∧
    (∀ i, i < s.length →
      (encrypt_imz_password s).getD i 0 =
        (IMZ_PW_CHARS.getD (s.getD i 0 % 13) 0 : Int) - ((i % 3 : Nat) : Int) + 2) ∧
    encrypt_imz_password [] = [] ∧
    encrypt_imz_password [97] = [50] := by
  refine ⟨encryptFrom_length 0 s, fun i h => ?_, rfl, by decide⟩
  simpa using encryptFrom_getD 0 s i h

/-- Witness for C1 at the fixture input `"a"` (code point 97), position 0. -/
theorem claim_C1_cipher_formula_witness :
    (0 : Nat) < ([97] : List Nat).length ∧
    (encrypt_imz_password [97]).getD 0 0 =
      (IMZ_PW_CHARS.getD (([97] : List Nat).getD 0 0 % 13) 0 : Int) -
        ((0 % 3 : Nat) : Int) + 2 :=
  ⟨by decide, (claim_C1_cipher_formula [97]).2.1 0 (by decide)⟩

/-- C10: the transform is total — the lookup index `ord(c) mod 13` is
always inside the 13-character alphabet, the alphabet's code points lie in
[48, 121], every output code point lies in [48, 123], and in particular
every output is a valid `chr` argument, so the encoding-error case is
unreachable. -/
theorem claim_C10_cipher_total (s : List Nat) :
    IMZ_PW_CHARS.length = 13 ∧
    (∀ a ∈ IMZ_PW_CHARS, 48 ≤ a ∧ a ≤ 121) ∧
    (∀ c : Nat, c % 13 < IMZ_PW_CHARS.length) ∧
    (∀ o ∈ encrypt_imz_password s, 48 ≤ o ∧ o ≤ 123) ∧
    (∀ o ∈ encrypt_imz_password s, validChrArg o) := by
  refine ⟨rfl, by decide, fun c => Nat.mod_lt _ (by norm_num), ?_, ?_⟩
  · exact fun o ho => encryptFrom_mem_bounds s 0 o ho
  · intro o ho
    have h := encryptFrom_mem_bounds s 0 o ho
    exact ⟨by omega, by omega⟩

/-- Witness for C10 at input `"a"`, output ordinal 50. -/
theorem claim_C10_cipher_total_witness :
    (50 : Int) ∈ encrypt_imz_password [97] ∧ 48 ≤ (50 : Int) ∧ (50 : Int) ≤ 123 :=
  ⟨by decide, (claim_C10_cipher_total [97]).2.2.2.1 50 (by decide)⟩

/-! ## No pipeline stage emits the done token

The done token's action tag `"PROCESS_DONE"` was chosen unique; `noDone`
checks that a list of events carries only ordinary action tags. -/

/-- No event of the list carries the done token's action tag. -/
def noDone (evs : List Event) : Bool :=
  evs.all (fun ev => ev.action != "PROCESS_DONE")

theorem noDone_append (a b : List Event) :
    noDone (a ++ b) = (noDone a && noDone b) := List.all_append

theorem noDone_iff (evs : List Event) :
    noDone evs = true ↔ ∀ ev ∈ evs, ev.action ≠ "PROCESS_DONE" := by
  simp [noDone, List.all_eq_true, bne_iff_ne]

theorem noDone_postStep2Efi (env : Env) (rt ps : Path) :
    noDone (postStep2Efi env rt ps) = true := by
  unfold postStep2Efi
  dsimp only
  repeat' split
  all_goals rfl

theorem noDone_postStep3Loop (env : Env) (tr ps : Path) (fs : List String) :
    noDone (postStep3Loop env tr ps fs).1 = true := by
  induction fs with
  | nil => rfl
  | cons f rest ih =>
    unfold postStep3Loop
    dsimp only
    repeat' split
    all_goals first
      | rfl
      | exact ih

theorem noDone_postStep3Cri (env : Env) (rt ps : Path) :
    noDone (postStep3Cri env rt ps).1 = true := by
  unfold postStep3Cri
  dsimp only
  repeat' split
  all_goals first
    | rfl
    | exact noDone_postStep3Loop env _ ps _

theorem noDone_postStep4Aod (env : Env) (rt sd : Path) (cri : String) :
    noDone (postStep4Aod env rt sd cri).1 = true := by
  unfold postStep4Aod
  dsimp only
  repeat' split
  all_goals rfl

theorem noDone_nil : noDone [] = true := rfl

theorem noDone_cons (e : Event) (l : List Event) :
    noDone (e :: l) = ((e.action != "PROCESS_DONE") && noDone l) := rfl

theorem noDone_postStep1Mfg (env : Env) (rt : Path) :
    noDone (postStep1Mfg env rt) = true := by
  unfold postStep1Mfg
  repeat' split
  all_goals rfl

theorem noDone_postPatchBlock (env : Env) (rt : Path) (ps : Option Path) :
    noDone (postPatchBlock env rt ps).1 = true := by
  cases ps with
  | none => rfl
  | some p =>
    unfold postPatchBlock
    repeat' split
    all_goals first
      | rfl
      | (simp only [noDone_append, Bool.and_eq_true]
         exact ⟨noDone_postStep2Efi env rt _, noDone_postStep3Cri env rt _⟩)

theorem noDone_postAodBlock (env : Env) (rt sd : Path) (oc : Option String) :
    noDone (postAodBlock env rt sd oc).1 = true := by
  cases oc with
  | none => rfl
  | some cri => exact noDone_postStep4Aod env rt sd cri

theorem noDone_post_process_files (env : Env) (rt : Path) (ps : Option Path)
    (sd : Path) : noDone (post_process_files env rt ps sd) = true := by
  unfold post_process_files
  simp only [noDone_append, Bool.and_eq_true]
  refine ⟨⟨⟨noDone_postStep1Mfg env rt, noDone_postPatchBlock env rt ps⟩,
    noDone_postAodBlock env rt sd _⟩, ?_⟩
  split
  all_goals rfl

/-- `noDone` lifted over a per-action result: an escaped exception emits
nothing, a normal return emits its event list. -/
def noDoneExcept (r : Except String (List Event)) : Bool :=
  match r with
  | .error _ => true
  | .ok evs => noDone evs

theorem noDone_processCreateNode (env : Env) (td : Path) (n : FileNode) :
    noDoneExcept (processCreateNode env td n) = true := by
  unfold processCreateNode
  dsimp only
  repeat' split
  all_goals rfl

theorem noDone_processCreateNodes (env : Env) (td : Path) (ns : List FileNode) :
    noDone (processCreateNodes env td ns).1 = true := by
  induction ns with
  | nil => rfl
  | cons n rest ih =>
    unfold processCreateNodes
    split
    · rfl
    · rename_i evs hok
      simp only [noDone_append, Bool.and_eq_true]
      have h1 := noDone_processCreateNode env td n
      rw [hok] at h1
      exact ⟨h1, ih⟩

theorem noDone_processTransferNode (env : Env) (sd td : Path) (n : FileNode) :
    noDoneExcept (processTransferNode env sd td n) = true := by
  unfold processTransferNode
  dsimp only
  repeat' split
  all_goals rfl

theorem noDone_processTransferNodes (env : Env) (sd td : Path) (ns : List FileNode) :
    noDone (processTransferNodes env sd td ns).1 = true := by
  induction ns with
  | nil => rfl
  | cons n rest ih =>
    unfold processTransferNodes
    split
    · rfl
    · rename_i evs hok
      simp only [noDone_append, Bool.and_eq_true]
      have h1 := noDone_processTransferNode env sd td n
      rw [hok] at h1
      exact ⟨h1, ih⟩

theorem noDone_manualEvents (env : Env) (td : Path) (mf : Option (List FileNode)) :
    noDone (manualEvents env td mf).1 = true := by
  cases mf with
  | none => rfl
  | some ns => exact noDone_processCreateNodes env td ns

theorem noDone_filesEvents (env : Env) (sd td : Path) (fs : Option (List FileNode)) :
    noDone (filesEvents env sd td fs).1 = true := by
  cases fs with
  | none => rfl
  | some ns => exact noDone_processTransferNodes env sd td ns

theorem noDone_runTryBody (env : Env) (root : RecoveryNode) (sd : Path)
    (pd : Option Path) (td scd : Path) :
    noDone (runTryBody env root sd pd td scd).1 = true := by
  unfold runTryBody
  dsimp only
  repeat' split
  all_goals simp +decide [noDone_append, noDone_cons, noDone_nil,
    noDone_manualEvents, noDone_filesEvents, noDone_post_process_files]


/-- C5: for every run of the pipeline worker — any oracle outcomes, any
manifest, any paths, including runs that abort partway with a FATAL
event — the done-token event is the last item enqueued and is enqueued
exactly once (it is the only event whose action tag is
`"PROCESS_DONE"`), because it is emitted from the `finally:` block. -/
theorem claim_C5_done_token_last (env : Env) (root : RecoveryNode) (sd : Path)
    (pd : Option Path) (td scd : Path) :
    (run_recovery_process env root sd pd td scd).getLast? = some doneEvent ∧
    (run_recovery_process env root sd pd td scd).filter
      (fun ev => ev.action == "PROCESS_DONE") = [doneEvent] := by
  obtain ⟨pre, hpre, hno⟩ :
      ∃ pre, run_recovery_process env root sd pd td scd = pre ++ [doneEvent] ∧
        noDone pre = true := by
    rcases h : runTryBody env root sd pd td scd with ⟨evs, err⟩
    have hn := noDone_runTryBody env root sd pd td scd
    rw [h] at hn
    cases err with
    | none => exact ⟨evs, by unfold run_recovery_process; rw [h], hn⟩
    | some e =>
      refine ⟨evs ++ [⟨"FATAL", "Main Loop", "", e⟩],
        by unfold run_recovery_process; rw [h], ?_⟩
      rw [noDone_append, hn]
      rfl
  constructor
  · rw [hpre]
    exact List.getLast?_concat _
  · rw [hpre, List.filter_append]
    have h1 : pre.filter (fun ev => ev.action == "PROCESS_DONE") = [] := by
      rw [List.filter_eq_nil_iff]
      intro a ha
      have := (noDone_iff pre).mp hno a ha
      simpa using this
    rw [h1]
    rfl

/-- C7: a transfer action whose resolved source `sourceRoot/sourceFile`
does not exist yields exactly one MISSING event — never a COPY or UNPACK
event — and the remaining actions still run (the loop `continue`s): the
events and outcome of the rest of the list are unchanged. -/
theorem claim_C7_missing_source (env : Env) (sd td : Path) (n : FileNode)
    (rest : List FileNode) (sf : String)
    (hsrc : n.source = some sf) (hne : sf.isEmpty = false)
    (hmk : env.makedirsErr (td ++ [stripSlashes ((n.copypath).getD "")]) = none)
    (hex : env.pathExists (sd ++ [sf]) = false) :
    processTransferNode env sd td n =
      .ok [⟨"MISSING", sf, "", "Source not found"⟩] ∧
    (processTransferNodes env sd td (n :: rest)).1 =
      ⟨"MISSING", sf, "", "Source not found"⟩ ::
        (processTransferNodes env sd td rest).1 ∧
    (processTransferNodes env sd td (n :: rest)).2 =
      (processTransferNodes env sd td rest).2 := by
  have h1 : processTransferNode env sd td n =
      .ok [⟨"MISSING", sf, "", "Source not found"⟩] := by
    unfold processTransferNode
    rw [hsrc]
    simp only [hne, Bool.false_eq_true, if_false, hmk, hex, Bool.not_false, if_true]
  refine ⟨h1, ?_, ?_⟩
  all_goals (conv_lhs => rw [processTransferNodes, h1])
  all_goals try rfl

/-- Witness for C7: the fixture transfer action against an oracle where no
path exists. -/
theorem claim_C7_missing_source_witness :
    processTransferNode baseEnv ["src"] ["usb"] nodeTransferABin =
      .ok [⟨"MISSING", "a.bin", "", "Source not found"⟩] ∧
    (processTransferNodes baseEnv ["src"] ["usb"] [nodeTransferABin]).1 =
      ⟨"MISSING", "a.bin", "", "Source not found"⟩ ::
        (processTransferNodes baseEnv ["src"] ["usb"] []).1 ∧
    (processTransferNodes baseEnv ["src"] ["usb"] [nodeTransferABin]).2 =
      (processTransferNodes baseEnv ["src"] ["usb"] []).2 :=
  claim_C7_missing_source baseEnv ["src"] ["usb"] nodeTransferABin [] "a.bin"
    rfl rfl rfl rfl

/-- C2 as stated is false: in the concrete run below, the target root is
created fine, but creating one create-action's destination directory
(`usb/sub`) raises; the failure is not converted into a per-action
ProgressEvent and execution does not continue with the next action —
instead the run aborts with FATAL (only INIT, FATAL and the done token
are enqueued, and the second create action is never reached). -/
theorem claim_C2_counterexample :
    envDirFails.makedirsErr ["usb"] = none ∧
    envDirFails.makedirsErr ["usb", "sub"] = some "Permission denied" ∧
    run_recovery_process envDirFails rootTwoCreates ["src"] none ["usb"] ["app"] =
      [⟨"INIT", "Target Dir", "usb", "Created/Verified"⟩,
       ⟨"FATAL", "Main Loop", "", "Permission denied"⟩,
       ⟨"PROCESS_DONE", "", "", "Finished"⟩] := by
  refine ⟨rfl, rfl, ?_⟩
  rfl

/-- C2 amended: a failure of a create action's file *write*, of a
transfer action's copy, or of any unpack outcome (tool missing, tool
exception, non-zero exit) is caught, converted into one event carrying
the error detail, and execution continues with the next action; but a
failure of `os.makedirs` for the action's destination directory — in
either loop — sits outside the per-action handler, so, exactly like a
failure to create the target root, it escapes, aborts the run with one
FATAL event, and halts further processing. -/
theorem claim_C2_amended_action_failures (env : Env) (td : Path) (n : FileNode)
    (rest : List FileNode) (fn text e : String)
    (hname : n.name = some fn) (hfc : n.fcontent = some (some text))
    (hfn : fn.isEmpty = false) (ht : text.isEmpty = false) :
    (env.makedirsErr (td ++ [stripSlashes ((n.copypath).getD "")]) = none →
     env.writeErr (td ++ [stripSlashes ((n.copypath).getD ""), fn]) = some e →
     processCreateNode env td n =
       .ok [⟨"CREATE", fn, stripSlashes ((n.copypath).getD ""), "Error: " ++ e⟩] ∧
     (processCreateNodes env td (n :: rest)).1 =
       ⟨"CREATE", fn, stripSlashes ((n.copypath).getD ""), "Error: " ++ e⟩ ::
         (processCreateNodes env td rest).1 ∧
     (processCreateNodes env td (n :: rest)).2 =
       (processCreateNodes env td rest).2) ∧
    (env.makedirsErr (td ++ [stripSlashes ((n.copypath).getD "")]) = some e →
     processCreateNode env td n = .error e ∧
     processCreateNodes env td (n :: rest) = ([], some e)) ∧
    (∀ (root : RecoveryNode) (sd scd : Path) (pd : Option Path) (ns : List FileNode),
     root.manualfiles = some ns → env.makedirsErr td = none →
     (processCreateNodes env td ns).2 = some e →
     run_recovery_process env root sd pd td scd =
       ⟨"INIT", "Target Dir", pathStr td, "Created/Verified"⟩ ::
         ((processCreateNodes env td ns).1 ++
           [⟨"FATAL", "Main Loop", "", e⟩, doneEvent])) ∧
    (∀ (sd : Path) (m : FileNode) (sf : String),
     m.source = some sf → sf.isEmpty = false → m.copy = some "1" →
     env.makedirsErr (td ++ [stripSlashes ((m.copypath).getD "")]) = none →
     env.pathExists (sd ++ [sf]) = true →
     env.copy2Err (sd ++ [sf])
       ((td ++ [stripSlashes ((m.copypath).getD "")]) ++ [transferFinalName m sf]) =
       some e →
     processTransferNode env sd td m =
       .ok [⟨"COPY", sf, stripSlashes ((m.copypath).getD ""), "Error: " ++ e⟩]) ∧
    (∀ (sd : Path) (m : FileNode) (sf : String),
     m.source = some sf → sf.isEmpty = false → m.copy = some "0" →
     env.makedirsErr (td ++ [stripSlashes ((m.copypath).getD "")]) = none →
     env.pathExists (sd ++ [sf]) = true →
     (env.run7z (unpack7zCmd sd td m sf) = .notFound →
      processTransferNode env sd td m =
        .ok [⟨"UNPACK", "7z.exe", "", "Not Found in Path"⟩]) ∧
     (∀ msg, env.run7z (unpack7zCmd sd td m sf) = .raised msg →
      processTransferNode env sd td m =
        .ok [⟨"UNPACK", sf, "", "Exception: " ++ msg⟩]) ∧
     (∀ (code : Int) (stdout stderr : String),
      env.run7z (unpack7zCmd sd td m sf) = .exited code stdout stderr → code ≠ 0 →
      processTransferNode env sd td m =
        .ok [⟨"UNPACK", sf, stripSlashes ((m.copypath).getD ""),
          "Fail (" ++ lastDiagLine stdout stderr ++ ")"⟩])) ∧
    (∀ (sd : Path) (m : FileNode) (mrest : List FileNode) (evs : List Event),
     processTransferNode env sd td m = .ok evs →
     processTransferNodes env sd td (m :: mrest) =
       (evs ++ (processTransferNodes env sd td mrest).1,
         (processTransferNodes env sd td mrest).2)) ∧
    (∀ (sd : Path) (m : FileNode) (mrest : List FileNode) (sf : String),
     m.source = some sf → sf.isEmpty = false →
     env.makedirsErr (td ++ [stripSlashes ((m.copypath).getD "")]) = some e →
     processTransferNode env sd td m = .error e ∧
     processTransferNodes env sd td (m :: mrest) = ([], some e)) ∧
    (∀ (root : RecoveryNode) (sd scd : Path) (pd : Option Path) (ns : List FileNode),
     root.files = some ns → env.makedirsErr td = none →
     (manualEvents env td root.manualfiles).2 = none →
     (processTransferNodes env sd td ns).2 = some e →
     run_recovery_process env root sd pd td scd =
       ⟨"INIT", "Target Dir", pathStr td, "Created/Verified"⟩ ::
         ((manualEvents env td root.manualfiles).1 ++
           ((processTransferNodes env sd td ns).1 ++
             [⟨"FATAL", "Main Loop", "", e⟩, doneEvent]))) := by
  have hdl : (td ++ [stripSlashes ((n.copypath).getD ""), fn]).dropLast =
      td ++ [stripSlashes ((n.copypath).getD "")] := by
    rw [show td ++ [stripSlashes ((n.copypath).getD ""), fn] =
        (td ++ [stripSlashes ((n.copypath).getD "")]) ++ [fn] by simp,
      List.dropLast_concat]
  refine ⟨fun hmk hwr => ?_, fun hmk => ?_, fun root sd scd pd ns hmf hmk0 herr => ?_,
    fun sd m sf hsrc hsf hcopy hmk hex hcp => ?_,
    fun sd m sf hsrc hsf hcopy hmk hex =>
      ⟨fun hnf => ?_, fun msg hrs => ?_, fun code stdout stderr hxc hcz => ?_⟩,
    fun sd m mrest evs hok => ?_,
    fun sd m mrest sf hsrc hsf hmk => ?_,
    fun root sd scd pd ns hfs hmk0 hman herr => ?_⟩
  · have h1 : processCreateNode env td n =
        .ok [⟨"CREATE", fn, stripSlashes ((n.copypath).getD ""), "Error: " ++ e⟩] := by
      unfold processCreateNode
      rw [hname, hfc]
      simp only [hfn, ht, Bool.or_self, Bool.false_eq_true, if_false]
      rw [hdl, hmk, hwr]
    refine ⟨h1, ?_, ?_⟩
    all_goals (conv_lhs => rw [processCreateNodes, h1])
    all_goals try rfl
  · have h1 : processCreateNode env td n = .error e := by
      unfold processCreateNode
      rw [hname, hfc]
      simp only [hfn, ht, Bool.or_self, Bool.false_eq_true, if_false]
      rw [hdl, hmk]
    refine ⟨h1, ?_⟩
    conv_lhs => rw [processCreateNodes, h1]
  · unfold run_recovery_process runTryBody
    rw [hmk0, hmf]
    dsimp only [manualEvents]
    rw [herr]
    simp [List.append_assoc]
  · unfold processTransferNode
    rw [hsrc]
    simp only [hsf, Bool.false_eq_true, if_false]
    rw [hmk]
    simp only [hex, Bool.not_true, Bool.false_eq_true, if_false, hcopy, if_true]
    rw [hcp]
  · unfold processTransferNode
    rw [hsrc]
    simp only [hsf, Bool.false_eq_true, if_false]
    rw [hmk]
    simp only [hex, Bool.not_true, Bool.false_eq_true, if_false, hcopy]
    rw [hnf]
    simp
  · unfold processTransferNode
    rw [hsrc]
    simp only [hsf, Bool.false_eq_true, if_false]
    rw [hmk]
    simp only [hex, Bool.not_true, Bool.false_eq_true, if_false, hcopy]
    rw [hrs]
    simp
  · unfold processTransferNode
    rw [hsrc]
    simp only [hsf, Bool.false_eq_true, if_false]
    rw [hmk]
    simp only [hex, Bool.not_true, Bool.false_eq_true, if_false, hcopy]
    rw [hxc]
    simp [hcz]
  · conv_lhs => rw [processTransferNodes]
    rw [hok]
  · have h1 : processTransferNode env sd td m = .error e := by
      unfold processTransferNode
      rw [hsrc]
      simp only [hsf, Bool.false_eq_true, if_false]
      rw [hmk]
    refine ⟨h1, ?_⟩
    conv_lhs => rw [processTransferNodes, h1]
  · unfold run_recovery_process runTryBody
    rw [hmk0]
    dsimp only
    rw [hman]
    dsimp only
    rw [hfs]
    dsimp only [filesEvents]
    rw [herr]
    simp [List.append_assoc]

/-- Witness for C2's amended claim: the create write-failure and
directory-failure branches, a transfer copy failure, an unpack with the
7z binary missing, a transfer destination-directory failure escaping,
and the resulting FATAL-shaped run. -/
theorem claim_C2_amended_action_failures_witness :
    (processCreateNode envWriteFails ["usb"] nodeCreateFTxt =
      .ok [⟨"CREATE", "f.txt", "sub", "Error: disk full"⟩]) ∧
    (processCreateNode envDirFails ["usb"] nodeCreateFTxt =
      .error "Permission denied") ∧
    (processTransferNode envCopyFails ["src"] ["usb"] nodeTransferABin =
      .ok [⟨"COPY", "a.bin", "RECOVERY", "Error: copy boom"⟩]) ∧
    (processTransferNode env7zMissing ["src"] ["usb"] nodeUnpackAImz =
      .ok [⟨"UNPACK", "7z.exe", "", "Not Found in Path"⟩]) ∧
    (processTransferNode envTransferDirFails ["src"] ["usb"] nodeTransferABin =
      .error "mkdir boom") ∧
    (run_recovery_process envTransferDirFails rootTransferOnly ["src"] none
      ["usb"] ["app"] =
      [⟨"INIT", "Target Dir", "usb", "Created/Verified"⟩,
       ⟨"FATAL", "Main Loop", "", "mkdir boom"⟩, doneEvent]) :=
  ⟨((claim_C2_amended_action_failures envWriteFails ["usb"] nodeCreateFTxt []
      "f.txt" "hello" "disk full" rfl rfl rfl rfl).1 rfl rfl).1,
   ((claim_C2_amended_action_failures envDirFails ["usb"] nodeCreateFTxt []
      "f.txt" "hello" "Permission denied" rfl rfl rfl rfl).2.1 rfl).1,
   (claim_C2_amended_action_failures envCopyFails ["usb"] nodeCreateFTxt []
      "f.txt" "hello" "copy boom" rfl rfl rfl rfl).2.2.2.1 ["src"]
      nodeTransferABin "a.bin" rfl rfl rfl rfl rfl rfl,
   ((claim_C2_amended_action_failures env7zMissing ["usb"] nodeCreateFTxt []
      "f.txt" "hello" "x" rfl rfl rfl rfl).2.2.2.2.1 ["src"] nodeUnpackAImz
      "a.imz" rfl rfl rfl rfl rfl).1 rfl,
   ((claim_C2_amended_action_failures envTransferDirFails ["usb"] nodeCreateFTxt []
      "f.txt" "hello" "mkdir boom" rfl rfl rfl rfl).2.2.2.2.2.2.1 ["src"]
      nodeTransferABin [] "a.bin" rfl rfl rfl).1,
   (claim_C2_amended_action_failures envTransferDirFails ["usb"] nodeCreateFTxt []
      "f.txt" "hello" "mkdir boom" rfl rfl rfl rfl).2.2.2.2.2.2.2 rootTransferOnly
      ["src"] ["app"] none [nodeTransferABin] rfl rfl rfl rfl⟩

/-- C6: the executed action list consists of exactly the create-type
nodes with a non-empty name and truthy inline content and exactly the
transfer-type nodes with a non-empty source, in document order (the
extraction is a sublist of the node list), with at most as many actions
as file nodes; every node failing its guard is skipped by the executor
without producing any event. -/
theorem claim_C6_action_extraction (mn fns : List FileNode) :
    List.Sublist (mn.filter createQualifies) mn ∧
    List.Sublist (fns.filter transferQualifies) fns ∧
    (∀ n, n ∈ mn.filter createQualifies ↔ n ∈ mn ∧ createQualifies n = true) ∧
    (∀ n, n ∈ fns.filter transferQualifies ↔ n ∈ fns ∧ transferQualifies n = true) ∧
    ((mn.filter createQualifies).length + (fns.filter transferQualifies).length ≤
      mn.length + fns.length) ∧
    (∀ (env : Env) (td : Path) (n : FileNode), createQualifies n = false →
      processCreateNode env td n = .ok []) ∧
    (∀ (env : Env) (sd td : Path) (n : FileNode), transferQualifies n = false →
      processTransferNode env sd td n = .ok []) := by
  refine ⟨List.filter_sublist _, List.filter_sublist _,
    fun n => by simp [List.mem_filter, and_comm],
    fun n => by simp [List.mem_filter, and_comm],
    Nat.add_le_add (List.filter_sublist _).length_le
      (List.filter_sublist _).length_le, ?_, ?_⟩
  · intro env td n hq
    obtain ⟨nm, cp, fc, src, cpy, k⟩ := n
    unfold createQualifies at hq
    unfold processCreateNode
    rcases nm with _ | fn <;> rcases fc with _ | ofc <;> try rcases ofc with _ | t
    all_goals simp_all
  · intro env sd td n hq
    obtain ⟨nm, cp, fc, src, cpy, k⟩ := n
    unfold transferQualifies at hq
    unfold processTransferNode
    rcases src with _ | sf
    all_goals simp_all

/-- Witness for C6: a node with no name and a node with no source are
both skipped without events under the successful oracle. -/
theorem claim_C6_action_extraction_witness :
    processCreateNode baseEnv ["usb"] { name := none } = .ok [] ∧
    processTransferNode baseEnv ["src"] ["usb"] { source := none } = .ok [] :=
  ⟨(claim_C6_action_extraction [] []).2.2.2.2.2.1 baseEnv ["usb"]
      { name := none } rfl,
   (claim_C6_action_extraction [] []).2.2.2.2.2.2 baseEnv ["src"] ["usb"]
      { source := none } rfl⟩

/-- C3 as stated is false: in this concrete post-processing run the
classification read of `patch/X.CRI` raises and the exception is caught
by the bare `except: pass`, yet the run's entire event list is the single
completion STATUS event — the caught failure produced no ProgressEvent at
all. -/
theorem claim_C3_counterexample :
    envCriReadFails.readTextRes ["patch", "X.CRI"] = .error "PermissionError" ∧
    post_process_files envCriReadFails ["usb"] (some ["patch"]) ["app"] =
      [⟨"STATUS", "", "", "Post-processing complete."⟩] :=
  ⟨rfl, rfl⟩

/-- C3 amended: every caught failure produces exactly one ProgressEvent,
except the foreign-architecture classification read, whose failure is
silently swallowed: a recipe file whose read raises is treated as
non-foreign, and (when it has no payload alongside) the scan continues
exactly as if the file contributed nothing — no event records the
failure. -/
theorem claim_C3_amended_read_swallowed (env : Env) (tr p : Path)
    (filename : String) (rest : List String) (msg : String)
    (hread : env.readTextRes (p ++ [filename]) = .error msg)
    (hcri : strEndsWith (pyLower filename) ".cri" = true)
    (himz : env.pathExists (p ++ [pySplitextBase filename ++ ".IMZ"]) = false) :
    postStep3Loop env tr p (filename :: rest) = postStep3Loop env tr p rest ∧
    postStep3Loop env tr p [filename] = ([], none) := by
  have key : ∀ rs, postStep3Loop env tr p (filename :: rs) =
      postStep3Loop env tr p rs := by
    intro rs
    conv_lhs => rw [postStep3Loop]
    simp [hcri, hread, himz]
  exact ⟨key rest, by rw [key []]; rfl⟩

/-- Witness for C3's amended claim at the concrete read-failure oracle. -/
theorem claim_C3_amended_read_swallowed_witness :
    postStep3Loop envCriReadFails ["usb", "RECOVERY"] ["patch"] ["X.CRI"] =
      ([], none) :=
  (claim_C3_amended_read_swallowed envCriReadFails ["usb", "RECOVERY"] ["patch"]
    "X.CRI" [] "PermissionError" rfl rfl rfl).2

/-- The only way step 4 sets its early-return flag is the missing
`aodbuild.exe` branch: the step's events are then exactly the one ERROR
event, and the tool is indeed absent. -/
theorem postStep4Aod_early (env : Env) (rt sd : Path) (cri : String) :
    (postStep4Aod env rt sd cri).2 = true →
    postStep4Aod env rt sd cri =
      ([⟨"ERROR", "aodbuild.exe", "", "Tool missing in script dir"⟩], true) ∧
    env.pathExists (sd ++ ["aodbuild.exe"]) = false := by
  unfold postStep4Aod
  dsimp only
  repeat' split
  all_goals intro h
  all_goals simp_all

theorem postAodBlock_early (env : Env) (rt sd : Path) (oc : Option String)
    (h : (postAodBlock env rt sd oc).2 = true) :
    (postAodBlock env rt sd oc).1 =
      [⟨"ERROR", "aodbuild.exe", "", "Tool missing in script dir"⟩] ∧
    env.pathExists (sd ++ ["aodbuild.exe"]) = false := by
  cases oc with
  | none => simp [postAodBlock] at h
  | some cri =>
    have h2 := postStep4Aod_early env rt sd cri h
    refine ⟨?_, h2.2⟩
    show (postStep4Aod env rt sd cri).1 = _
    rw [h2.1]

/-- C4 as stated is false: in this concrete run a CRI/IMZ pair is adopted
and `AOD.DAT` exists but `aodbuild.exe` is absent; the post-processor
`return`s early, so its completion STATUS event is not enqueued — the
missing tool does not abort only that step. -/
theorem claim_C4_counterexample :
    envToolMissing.pathExists ["app", "aodbuild.exe"] = false ∧
    post_process_files envToolMissing ["usb"] (some ["patch"]) ["app"] =
      [⟨"COPY", "X.CRI & .IMZ", "RECOVERY", "Copied from Patch"⟩,
       ⟨"ERROR", "aodbuild.exe", "", "Tool missing in script dir"⟩] ∧
    ¬(⟨"STATUS", "", "", "Post-processing complete."⟩ : Event) ∈
      post_process_files envToolMissing ["usb"] (some ["patch"]) ["app"] :=
  ⟨rfl, rfl, by decide⟩

/-- C4 amended: the post-processor's event list ends with the completion
STATUS event in every run except one case — when the index-rebuild tool
`aodbuild.exe` is absent from the script directory, the early `return`
skips the STATUS event and the run ends with the tool-missing ERROR
event instead. -/
theorem claim_C4_amended_status (env : Env) (rt : Path) (ps : Option Path)
    (sd : Path) :
    (post_process_files env rt ps sd).getLast? =
        some ⟨"STATUS", "", "", "Post-processing complete."⟩ ∨
    ((post_process_files env rt ps sd).getLast? =
        some ⟨"ERROR", "aodbuild.exe", "", "Tool missing in script dir"⟩ ∧
      env.pathExists (sd ++ ["aodbuild.exe"]) = false) := by
  cases hb : (postAodBlock env rt sd (postPatchBlock env rt ps).2).2 with
  | false =>
    left
    unfold post_process_files
    rw [hb]
    simp only [Bool.false_eq_true, if_false]
    exact List.getLast?_concat _
  | true =>
    right
    obtain ⟨h1, h2⟩ := postAodBlock_early env rt sd _ hb
    refine ⟨?_, h2⟩
    unfold post_process_files
    rw [hb, h1]
    simp only [if_true, List.append_nil]
    exact List.getLast?_concat _

/-- C8 as stated is false: the blank-line filter runs over the whole
spliced list, header included, so when the backup's first 4 lines contain
a blank line the output cannot both start with those 4 lines verbatim and
contain no blank line — here the blank second header line is dropped. -/
theorem claim_C8_counterexample :
    4 ≤ (["a", "", "b", "c", "d"] : List String).length ∧
    spliceHeader ((["a", "", "b", "c", "d"] : List String).take 4)
      ["x", "y", "z", "w", "v"] = ["a", "b", "c", "v"] ∧
    ¬ (spliceHeader ((["a", "", "b", "c", "d"] : List String).take 4)
        ["x", "y", "z", "w", "v"]).take 4 =
      (["a", "", "b", "c", "d"] : List String).take 4 := by
  refine ⟨by decide, by decide, by decide⟩

/-- C8 amended: when the backup has at least 4 lines and its first 4
lines are all non-blank, the splice output is exactly the backup's first
4 lines followed by the non-blank remainder of the rebuilt file: it
starts with the header verbatim, contains no blank line, and keeps every
non-blank line of the rebuilt file beyond the 4 replaced ones. -/
theorem claim_C8_amended_splice (backup rebuilt : List String)
    (hlen : 4 ≤ backup.length)
    (hnb : ∀ l ∈ backup.take 4, isBlankLine l = false) :
    spliceHeader (backup.take 4) rebuilt =
      backup.take 4 ++ (rebuilt.drop 4).filter (fun l => !isBlankLine l) ∧
    (spliceHeader (backup.take 4) rebuilt).take 4 = backup.take 4 ∧
    (∀ l ∈ spliceHeader (backup.take 4) rebuilt, isBlankLine l = false) ∧
    (∀ l ∈ rebuilt.drop 4, isBlankLine l = false →
      l ∈ spliceHeader (backup.take 4) rebuilt) := by
  have h1 : spliceHeader (backup.take 4) rebuilt =
      backup.take 4 ++ (rebuilt.drop 4).filter (fun l => !isBlankLine l) := by
    unfold spliceHeader
    rw [List.filter_append]
    congr 1
    apply List.filter_eq_self.mpr
    intro l hl
    simp [hnb l hl]
  have hlen4 : (backup.take 4).length = 4 := by
    rw [List.length_take]
    omega
  refine ⟨h1, ?_, ?_, ?_⟩
  · rw [h1, List.take_left' hlen4]
  · intro l hl
    rw [h1] at hl
    rcases List.mem_append.mp hl with h | h
    · exact hnb l h
    · have := (List.mem_filter.mp h).2
      simpa using this
  · intro l hl hbl
    rw [h1]
    exact List.mem_append.mpr (Or.inr (List.mem_filter.mpr ⟨hl, by simp [hbl]⟩))

/-- Witness for C8's amended claim on a rebuilt file with interspersed
blank lines. -/
theorem claim_C8_amended_splice_witness :
    spliceHeader ((["h1", "h2", "h3", "h4"] : List String).take 4)
      ["x", "", "y", "", "z"] =
      (["h1", "h2", "h3", "h4"] : List String).take 4 ++
        (((["x", "", "y", "", "z"] : List String).drop 4).filter
          (fun l => !isBlankLine l)) :=
  (claim_C8_amended_splice ["h1", "h2", "h3", "h4"] ["x", "", "y", "", "z"]
    (by decide) (by decide)).1

/-- The split scanner cuts at the first separator: before it, exactly the
longest separator-free prefix; after it, the remainder. -/
theorem pySplit1Aux_spec (sep : Char) (l acc : List Char) :
    pySplit1Aux sep acc l =
      if sep ∈ l then
        [String.mk (acc.reverse ++ l.takeWhile (· ≠ sep)),
         String.mk ((l.dropWhile (· ≠ sep)).drop 1)]
      else [String.mk (acc.reverse ++ l)] := by
  induction l generalizing acc with
  | nil => simp [pySplit1Aux]
  | cons x xs ih =>
    by_cases hx : x = sep
    · subst hx
      simp [pySplit1Aux, List.takeWhile_cons, List.dropWhile_cons]
    · rw [pySplit1Aux]
      simp only [hx, if_false]
      rw [ih]
      by_cases hmem : sep ∈ xs
      · simp [hmem, Ne.symm hx, hx, List.takeWhile_cons, List.dropWhile_cons,
          List.append_assoc]
      · simp [hmem, Ne.symm hx, hx]

theorem pySplit1_spec (sep : Char) (s : String) :
    (sep ∉ s.data → pySplit1 sep s = [s]) ∧
    (sep ∈ s.data → pySplit1 sep s =
      [String.mk (s.data.takeWhile (· ≠ sep)),
       String.mk ((s.data.dropWhile (· ≠ sep)).drop 1)]) := by
  constructor <;> intro h <;>
    simp [pySplit1, pySplit1Aux_spec, h]

/-- C9 as stated is false: a non-blank line with no colon is not
preserved verbatim — `line.strip()` is appended instead, so the line
`"  hello"` comes out as `"hello"` with its leading whitespace gone. -/
theorem claim_C9_counterexample :
    (pySplitChar '\n' (pyReplaceTabs (pyStripWs "a:b\n  hello"))).filterMap
        formatValuesLine = ["a       :\tb", "hello"] ∧
    valuesDisplayOfContent "a:b\n  hello" = "a       :\tb\nhello" ∧
    formatValuesLine "  hello" = some "hello" ∧
    ("hello" : String) ≠ "  hello" := by
  refine ⟨rfl, rfl, rfl, by decide⟩

/-- C9 amended: the confirmation text is built from the content with
tabs replaced by spaces and the whole trimmed, line by line: blank lines
are dropped; a non-blank line with a colon is split at the first colon
and rendered as the *stripped* label left-justified (space-padded on the
right) to 8 characters, a colon, a tab, and the *stripped* value; a
non-blank line without a colon is emitted stripped of surrounding
whitespace, not verbatim.  A manifest whose `manualfiles` list starts
with a VALUES.TXT create-action with truthy content yields exactly this
text. -/
theorem claim_C9_amended_values_format (line : String) :
    (isBlankLine line = true → formatValuesLine line = none) ∧
    (isBlankLine line = false → ':' ∈ line.data →
      formatValuesLine line = some
        (pyLjust 8 (pyStripWs (String.mk (line.data.takeWhile (· ≠ ':')))) ++
          ":\t" ++ pyStripWs (String.mk ((line.data.dropWhile (· ≠ ':')).drop 1)))) ∧
    (isBlankLine line = false → ':' ∉ line.data →
      formatValuesLine line = some (pyStripWs line)) ∧
    (∀ text : String, valuesDisplayOfContent text = String.intercalate "\n"
      ((pySplitChar '\n' (pyReplaceTabs (pyStripWs text))).filterMap
        formatValuesLine)) ∧
    (∀ (rest : List FileNode) (t : String), t.isEmpty = false →
      findValuesContent
        ({ name := some "VALUES.TXT", fcontent := some (some t) } :: rest) =
        some (valuesDisplayOfContent t)) := by
  refine ⟨fun hb => ?_, fun hb hc => ?_, fun hb hc => ?_, fun text => rfl,
    fun rest t ht => ?_⟩
  · unfold formatValuesLine
    simp [hb]
  · unfold formatValuesLine
    simp only [hb, Bool.false_eq_true, if_false]
    rw [(pySplit1_spec ':' line).2 hc]
  · unfold formatValuesLine
    simp only [hb, Bool.false_eq_true, if_false]
    rw [(pySplit1_spec ':' line).1 hc]
  · unfold findValuesContent
    have hU : pyUpper "VALUES.TXT" = "VALUES.TXT" := by decide
    simp [hU, ht]

/-- Witness for C9's amended claim: one colon line and one colon-free
line, both with surrounding whitespace stripped. -/
theorem claim_C9_amended_values_format_witness :
    (isBlankLine " x" = false ∧ ':' ∉ (" x" : String).data ∧
      formatValuesLine " x" = some (pyStripWs " x")) ∧
    (isBlankLine "k : v" = false ∧ ':' ∈ ("k : v" : String).data ∧
      formatValuesLine "k : v" = some
        (pyLjust 8 (pyStripWs (String.mk (("k : v" : String).data.takeWhile
          (· ≠ ':')))) ++ ":\t" ++
          pyStripWs (String.mk ((("k : v" : String).data.dropWhile
            (· ≠ ':')).drop 1)))) :=
  ⟨⟨rfl, by decide, (claim_C9_amended_values_format " x").2.2.1 rfl (by decide)⟩,
   ⟨rfl, by decide, (claim_C9_amended_values_format "k : v").2.1 rfl (by decide)⟩⟩

end RecoveryUSBMaker
